import Mathlib

/-
Verification of the HDF5 wrapper in include/andres/hdf5/hdf5.hxx.

The wrapper is a thin adapter over the external HDF5 storage engine.  The
wrapper's own code (control flow, error checks, messages, descriptor
closes) is embedded from the source; the engine itself is external and is
modelled per the capability list of the specification (create/open a
container, named dataset entries with a shape and a type tag, raw
write/read, descriptor open/close bookkeeping).  Engine failures that the
source checks for are represented by failure-injection flags in the engine
state, so that every branch of the wrapper can be exercised.
-/

namespace andres

namespace hdf5

/-- File access mode, from `enum FileAccessMode {READ_ONLY, READ_WRITE}`. -/
inductive FileAccessMode
  | READ_ONLY
  | READ_WRITE
deriving DecidableEq, Repr

/-- HDF5 version tag, from `enum HDF5Version {HDF5_VERSION_DEFAULT, HDF5_VERSION_LATEST}`. -/
inductive HDF5Version
  | HDF5_VERSION_DEFAULT
  | HDF5_VERSION_LATEST
deriving DecidableEq, Repr

/-- Engine-side access flag: `H5F_ACC_RDONLY` vs `H5F_ACC_RDWR`. -/
inductive EngineAccess
  | rdonly
  | rdwr
deriving DecidableEq, Repr

/-- The engine's native type tags (`H5T_NATIVE_*`), one per specialization of
`HDF5Type` in the source. -/
inductive H5NativeType
  | nativeChar
  | nativeUChar
  | nativeShort
  | nativeUShort
  | nativeInt
  | nativeUInt
  | nativeLong
  | nativeULong
  | nativeLLong
  | nativeULLong
  | nativeFloat
  | nativeDouble
  | nativeLDouble
deriving DecidableEq, Repr

/-- The scalar element types a caller can instantiate the templates with:
the thirteen specialized ones, plus `unsupported s` standing for any other
type `s` (which hits the unspecialized primary template). -/
inductive CppScalarType
  | char
  | uchar
  | short
  | ushort
  | int
  | uint
  | long
  | ulong
  | llong
  | ullong
  | float
  | double
  | ldouble
  | unsupported (typeName : String)
deriving DecidableEq, Repr

/-- Error taxonomy of the wrapper.  Each constructor is one error kind of the
specification; the payload is the exact `std::runtime_error` message the
source throws. -/
inductive H5Error
  | creationError (msg : String)
  | openError (msg : String)
  | shapeError (msg : String)
  | writeError (msg : String)
  | readError (msg : String)
  | configurationError (msg : String)
deriving DecidableEq, Repr

/-- `HDF5Type<T>::type()`: the primary template throws
`runtime_error("conversion of this type to HDF5 type not implemented.")`
(a ConfigurationError, raised at first use); each specialization returns its
native type tag. -/
def hdf5Type : CppScalarType → Except H5Error H5NativeType
  | .char => .ok .nativeChar
  | .uchar => .ok .nativeUChar
  | .short => .ok .nativeShort
  | .ushort => .ok .nativeUShort
  | .int => .ok .nativeInt
  | .uint => .ok .nativeUInt
  | .long => .ok .nativeLong
  | .ulong => .ok .nativeULong
  | .llong => .ok .nativeLLong
  | .ullong => .ok .nativeULLong
  | .float => .ok .nativeFloat
  | .double => .ok .nativeDouble
  | .ldouble => .ok .nativeLDouble
  | .unsupported _ =>
      .error (.configurationError "conversion of this type to HDF5 type not implemented.")

/-- A dataset entry stored by the engine: its type tag, its shape (one extent
per dimension) and its raw contents. -/
structure Dataset (τ : Type) where
  typeTag : H5NativeType
  dims : List Nat
  data : List τ

/-- Engine-side state of one open container, modelled per the capability list
of the specification: the named entries it holds, the number of engine-side
descriptors currently open (each `H5*create`/`H5*open`/`H5*get` that yields a
descriptor increments it, each `H5*close` decrements it), the access flag the
container was opened with, and failure-injection flags for the engine calls
whose status the wrapper checks. -/
structure H5State (τ : Type) where
  entries : String → Option (Dataset τ)
  openCount : Nat
  access : EngineAccess
  failScreate : Bool
  failDcreate : Bool
  failDwrite : Bool
  failDims : Bool
  failDread : Bool

/-- `std::vector<T>::resize(n)`: keep the first `n` elements, pad with
default-constructed elements up to length `n`. -/
def vectorResize {τ : Type} (data : List τ) (n : Nat) (pad : τ) : List τ :=
  data.take n ++ List.replicate (n - data.length) pad

/-- `H5Screate_simple`: describe a simple shape; on success a new dataspace
descriptor is open.  A failing call acquires nothing. -/
def h5ScreateSimple {τ : Type} (st : H5State τ) (shape : List Nat) :
    Option Unit × H5State τ :=
  if st.failScreate then (none, st)
  else
    let _ := shape
    (some (), { st with openCount := st.openCount + 1 })

/-- `H5Sclose` / `H5Dclose` / `H5Tclose` all release one open descriptor. -/
def h5Sclose {τ : Type} (st : H5State τ) : H5State τ :=
  { st with openCount := st.openCount - 1 }

/-- `H5Dclose`: release the dataset descriptor. -/
def h5Dclose {τ : Type} (st : H5State τ) : H5State τ :=
  { st with openCount := st.openCount - 1 }

/-- `H5Tclose`: release the type descriptor. -/
def h5Tclose {τ : Type} (st : H5State τ) : H5State τ :=
  { st with openCount := st.openCount - 1 }

/-- `H5Dcreate`: create a named typed entry with the given shape under the
container.  The engine rejects the creation if the container was opened
read-only, if an entry of that name already exists, or on an injected
failure; a failing call acquires nothing.  On success the entry exists with
default contents and a new dataset descriptor is open. -/
def h5Dcreate {τ : Type} (st : H5State τ) (pad : τ) (name : String)
    (tag : H5NativeType) (shape : List Nat) : Option Unit × H5State τ :=
  if st.failDcreate ∨ st.access = .rdonly ∨ (st.entries name).isSome then (none, st)
  else
    (some (),
      { st with
        entries := fun n =>
          if n = name then some ⟨tag, shape, List.replicate shape.prod pad⟩
          else st.entries n,
        openCount := st.openCount + 1 })

/-- `H5Dwrite`: write the raw contents of the named entry.  Returns whether
the engine reported success. -/
def h5Dwrite {τ : Type} (st : H5State τ) (name : String) (tag : H5NativeType)
    (data : List τ) : Bool × H5State τ :=
  if st.failDwrite then (false, st)
  else
    let _ := tag
    (true,
      { st with
        entries := fun n =>
          if n = name then
            match st.entries n with
            | some ds => some { ds with data := data }
            | none => none
          else st.entries n })

/-- `H5Dopen`: open the named entry; fails exactly when no entry of that name
exists (acquiring nothing), otherwise a new dataset descriptor is open. -/
def h5Dopen {τ : Type} (st : H5State τ) (name : String) :
    Option (Dataset τ) × H5State τ :=
  match st.entries name with
  | none => (none, st)
  | some ds => (some ds, { st with openCount := st.openCount + 1 })

/-- `H5Dget_type`: a new type descriptor is open. -/
def h5DgetType {τ : Type} (st : H5State τ) : H5State τ :=
  { st with openCount := st.openCount + 1 }

/-- `H5Dget_space`: a new dataspace descriptor is open. -/
def h5DgetSpace {τ : Type} (st : H5State τ) : H5State τ :=
  { st with openCount := st.openCount + 1 }

/-- `H5Sget_simple_extent_ndims`: the stored entry's dimensionality. -/
def h5SgetSimpleExtentNdims {τ : Type} (ds : Dataset τ) : Nat :=
  ds.dims.length

/-- `H5Sget_simple_extent_dims` writing into `hsize_t size = 0`: on success
the first extent, on an injected failure a negative status.  Acquires
nothing. -/
def h5SgetSimpleExtentDims {τ : Type} (st : H5State τ) (ds : Dataset τ) :
    Option Nat :=
  if st.failDims then none else some (ds.dims.headD 0)

/-- `H5Dread`: read the entry's declared number of elements of raw contents
into the caller's buffer, interpreted via the given memory type tag; `none`
on an injected failure.  Acquires nothing. -/
def h5Dread {τ : Type} (st : H5State τ) (ds : Dataset τ) (tag : H5NativeType)
    (size : Nat) (pad : τ) : Option (List τ) :=
  if st.failDread then none
  else
    let _ := tag
    some (vectorResize ds.data size pad)

/-- `createFile`: the engine call `H5Fcreate(filename, H5F_ACC_TRUNC, ...)`
returns a handle; the wrapper throws
`"Could not create HDF5 file: " + filename` when it is negative and returns
it otherwise.  The version plist built for `HDF5_VERSION_LATEST` only selects
the engine's layout and does not change the wrapper's behavior. -/
def createFile (h5fcreateResult : Int) (filename : String)
    (hdf5version : HDF5Version) : Except H5Error Int :=
  let _ := hdf5version
  if h5fcreateResult < 0 then
    .error (.creationError ("Could not create HDF5 file: " ++ filename))
  else
    .ok h5fcreateResult

/-- `openFile`'s translation of the access mode: `access` starts as
`H5F_ACC_RDONLY` and becomes `H5F_ACC_RDWR` exactly when the mode is
`READ_WRITE`. -/
def accessFlag : FileAccessMode → EngineAccess
  | .READ_WRITE => .rdwr
  | .READ_ONLY => .rdonly

/-- `openFile` at the handle level: `H5Fopen(filename, access, version)`
returns a handle; the wrapper throws
`"Could not open HDF5 file: " + filename` when it is negative. -/
def openFile (h5fopenResult : Int) (filename : String)
    (fileAccessMode : FileAccessMode) (hdf5version : HDF5Version) :
    Except H5Error Int :=
  let _ := accessFlag fileAccessMode
  let _ := hdf5version
  if h5fopenResult < 0 then
    .error (.openError ("Could not open HDF5 file: " ++ filename))
  else
    .ok h5fopenResult

/-- `openFile` at the container level: on engine success the container is
open with the access flag `accessFlag fileAccessMode` and the entries the
file already holds; no descriptors beyond the container handle are open and
no engine failures are pending.  On engine failure the wrapper throws
`"Could not open HDF5 file: " + filename`. -/
def openFileModel {τ : Type} (filename : String)
    (fileAccessMode : FileAccessMode) (hdf5version : HDF5Version)
    (contents : String → Option (Dataset τ)) (engineOk : Bool) :
    Except H5Error (H5State τ) :=
  let _ := hdf5version
  if engineOk then
    .ok
      { entries := contents, openCount := 0,
        access := accessFlag fileAccessMode,
        failScreate := false, failDcreate := false, failDwrite := false,
        failDims := false, failDread := false }
  else
    .error (.openError ("Could not open HDF5 file: " ++ filename))

/-- `closeFile`: `H5Fclose(handle)` with its status discarded.  The engine's
close call is a function from the handle to a status paired with the
engine's resulting state; the wrapper keeps only the state. -/
def closeFile {σ : Type} (h5fcloseImpl : Int → Int × σ) (handle : Int) : σ :=
  (h5fcloseImpl handle).2

/-- `createGroup`: `H5Gcreate(parentHandle, groupName, ...)` returns a
handle; the wrapper throws `"Could not create HDF5 group."` when it is
negative. -/
def createGroup (h5gcreateResult : Int) (groupName : String) :
    Except H5Error Int :=
  let _ := groupName
  if h5gcreateResult < 0 then
    .error (.creationError "Could not create HDF5 group.")
  else
    .ok h5gcreateResult

/-- `openGroup`: `H5Gopen(parentHandle, groupName, H5P_DEFAULT)` returns a
handle; the wrapper throws `"Could not open HDF5 group."` when it is
negative. -/
def openGroup (h5gopenResult : Int) (groupName : String) :
    Except H5Error Int :=
  let _ := groupName
  if h5gopenResult < 0 then
    .error (.openError "Could not open HDF5 group.")
  else
    .ok h5gopenResult

/-- `closeGroup`: `H5Gclose(handle)` with its status discarded. -/
def closeGroup {σ : Type} (h5gcloseImpl : Int → Int × σ) (handle : Int) : σ :=
  (h5gcloseImpl handle).2

/-- `save(parentHandle, datasetName, data)`, translated step for step:
`H5Screate_simple(1, {data.size()}, NULL)` (throw the dataspace message on
failure); `HDF5Type<T>().type()` is evaluated as an argument of `H5Dcreate`,
so an unsupported `T` throws at that point, after the dataspace was acquired
and without any close; on `H5Dcreate` failure close the dataspace and throw;
on `H5Dwrite` failure close the dataset and the dataspace and throw; on
success return with no closes. -/
def save {τ : Type} (st : H5State τ) (pad : τ) (datasetName : String)
    (elemType : CppScalarType) (data : List τ) :
    Except H5Error Unit × H5State τ :=
  let shape : List Nat := [data.length]
  match h5ScreateSimple st shape with
  | (none, st1) => (.error (.shapeError "could not create HDF5 dataspace."), st1)
  | (some _, st1) =>
    match hdf5Type elemType with
    | .error e => (.error e, st1)
    | .ok tag =>
      match h5Dcreate st1 pad datasetName tag shape with
      | (none, st2) =>
        (.error (.creationError "could not create HDF5 dataset."), h5Sclose st2)
      | (some _, st2) =>
        match h5Dwrite st2 datasetName tag data with
        | (false, st3) =>
          (.error (.writeError "could not write to HDF5 dataset."),
            h5Sclose (h5Dclose st3))
        | (true, st3) => (.ok (), st3)

/-- `load(parentHandle, datasetName, data)`, translated step for step:
`H5Dopen` (throw the open message on failure, nothing acquired);
`H5Dget_type`; `H5Dget_space`; `H5Sget_simple_extent_ndims`; if the
dimensionality is not 1 throw at once, with no closes; on
`H5Sget_simple_extent_dims` failure close the three descriptors and throw;
`data.resize(size)`; `HDF5Type<T>().type()` is evaluated as an argument of
`H5Dread`, so an unsupported `T` throws at that point; close the three
descriptors; if the read failed, throw. -/
def load {τ : Type} (st : H5State τ) (pad : τ) (datasetName : String)
    (elemType : CppScalarType) (data : List τ) :
    Except H5Error Unit × H5State τ × List τ :=
  match h5Dopen st datasetName with
  | (none, st1) => (.error (.openError "could not open HDF5 dataset."), st1, data)
  | (some ds, st1) =>
    let st2 := h5DgetType st1
    let st3 := h5DgetSpace st2
    let dimension := h5SgetSimpleExtentNdims ds
    if dimension ≠ 1 then
      (.error (.shapeError "HDF5 dataset is not one-dimensional."), st3, data)
    else
      match h5SgetSimpleExtentDims st3 ds with
      | none =>
        (.error (.shapeError "could not get shape of HDF5 dataset."),
          h5Sclose (h5Tclose (h5Dclose st3)), data)
      | some size =>
        let data1 := vectorResize data size pad
        match hdf5Type elemType with
        | .error e => (.error e, st3, data1)
        | .ok tag =>
          match h5Dread st3 ds tag size pad with
          | none =>
            (.error (.readError "could not read from HDF5 dataset \x27points\x27."),
              h5Sclose (h5Tclose (h5Dclose st3)), data1)
          | some buf => (.ok (), h5Sclose (h5Tclose (h5Dclose st3)), buf)

/-- A fresh writable container with no entries, no open descriptors and no
pending engine failures. -/
def freshState : H5State Nat :=
  { entries := fun _ => none, openCount := 0, access := .rdwr,
    failScreate := false, failDcreate := false, failDwrite := false,
    failDims := false, failDread := false }

/-- A writable container holding a rank-2 entry named `y` with shape 2 × 3. -/
def twoDimState : H5State Nat :=
  { entries := fun n =>
      if n = "y" then some ⟨.nativeInt, [2, 3], List.replicate 6 0⟩ else none,
    openCount := 0, access := .rdwr, failScreate := false, failDcreate := false,
    failDwrite := false, failDims := false, failDread := false }

/-- A writable container holding a rank-1 entry named `x` with three
elements. -/
def oneDimState : H5State Nat :=
  { entries := fun n =>
      if n = "x" then some ⟨.nativeInt, [3], [4, 5, 6]⟩ else none,
    openCount := 0, access := .rdwr, failScreate := false, failDcreate := false,
    failDwrite := false, failDims := false, failDread := false }

/-- Like `oneDimState`, but the engine's raw read fails. -/
def readFailState : H5State Nat :=
  { oneDimState with failDread := true }

/-- A container opened read-only, with no entries. -/
def roState : H5State Nat :=
  { entries := fun _ => none, openCount := 0, access := .rdonly,
    failScreate := false, failDcreate := false, failDwrite := false,
    failDims := false, failDread := false }

/-- `vector::resize(n)` always yields length `n`. -/
theorem vectorResize_length {τ : Type} (data : List τ) (n : Nat) (pad : τ) :
    (vectorResize data n pad).length = n := by
  simp [vectorResize]
  omega

/-- Resizing a vector to its own length is the identity. -/
theorem vectorResize_self {τ : Type} (v : List τ) (pad : τ) :
    vectorResize v v.length pad = v := by
  simp [vectorResize]

/-- Claim C5: each of the thirteen supported scalar types is mapped to its
engine type tag, and any type outside that set raises the ConfigurationError
of the unspecialized primary template instead of returning a tag. -/
theorem hdf5Type_covers_supported_and_rejects_unsupported :
    hdf5Type .char = .ok .nativeChar ∧
    hdf5Type .uchar = .ok .nativeUChar ∧
    hdf5Type .short = .ok .nativeShort ∧
    hdf5Type .ushort = .ok .nativeUShort ∧
    hdf5Type .int = .ok .nativeInt ∧
    hdf5Type .uint = .ok .nativeUInt ∧
    hdf5Type .long = .ok .nativeLong ∧
    hdf5Type .ulong = .ok .nativeULong ∧
    hdf5Type .llong = .ok .nativeLLong ∧
    hdf5Type .ullong = .ok .nativeULLong ∧
    hdf5Type .float = .ok .nativeFloat ∧
    hdf5Type .double = .ok .nativeDouble ∧
    hdf5Type .ldouble = .ok .nativeLDouble ∧
    ∀ typeName, hdf5Type (.unsupported typeName) =
      .error (.configurationError
        "conversion of this type to HDF5 type not implemented.") :=
  ⟨rfl, rfl, rfl, rfl, rfl, rfl, rfl, rfl, rfl, rfl, rfl, rfl, rfl,
    fun _ => rfl⟩

/-- Claim C6: createFile, openFile, createGroup and openGroup each return a
non-negative handle or throw, never returning a negative handle; the file
operations' errors carry the file name. -/
theorem handles_nonnegative_or_error :
    ∀ (r : Int) (name : String) (m : FileAccessMode) (v : HDF5Version),
      (∀ h, createFile r name v = .ok h → 0 ≤ h) ∧
      (∀ e, createFile r name v = .error e →
        e = .creationError ("Could not create HDF5 file: " ++ name)) ∧
      (∀ h, openFile r name m v = .ok h → 0 ≤ h) ∧
      (∀ e, openFile r name m v = .error e →
        e = .openError ("Could not open HDF5 file: " ++ name)) ∧
      (∀ h, createGroup r name = .ok h → 0 ≤ h) ∧
      (∀ h, openGroup r name = .ok h → 0 ≤ h) := by
  intro r name m v
  refine ⟨?_, ?_, ?_, ?_, ?_, ?_⟩ <;> intro x hx
  · simp only [createFile] at hx
    split at hx
    · exact absurd hx (by simp)
    · cases hx
      omega
  · simp only [createFile] at hx
    split at hx
    · cases hx
      rfl
    · exact absurd hx (by simp)
  · simp only [openFile] at hx
    split at hx
    · exact absurd hx (by simp)
    · cases hx
      omega
  · simp only [openFile] at hx
    split at hx
    · cases hx
      rfl
    · exact absurd hx (by simp)
  · simp only [createGroup] at hx
    split at hx
    · exact absurd hx (by simp)
    · cases hx
      omega
  · simp only [openGroup] at hx
    split at hx
    · exact absurd hx (by simp)
    · cases hx
      omega

/-- Witness for C6 at concrete handles 5 and -1. -/
theorem handles_nonnegative_or_error_witness :
    (0 : Int) ≤ 5 ∧
      H5Error.openError ("Could not open HDF5 file: " ++ "a.h5") =
        .openError ("Could not open HDF5 file: " ++ "a.h5") :=
  ⟨(handles_nonnegative_or_error 5 "a.h5" .READ_ONLY
      .HDF5_VERSION_DEFAULT).1 5 rfl,
   (handles_nonnegative_or_error (-1) "a.h5" .READ_ONLY
      .HDF5_VERSION_DEFAULT).2.2.2.1 _ (by simp [openFile])⟩

/-- Claim C7: closeFile and closeGroup discard the status of the underlying
release call on every execution and have no caller-observable effect beyond
the engine's own state change: the result is exactly the engine state, for
any status the engine returns. -/
theorem close_discards_status :
    ∀ {σ : Type} (h5fcloseImpl h5gcloseImpl altImpl : Int → Int × σ)
      (handle : Int),
      closeFile h5fcloseImpl handle = (h5fcloseImpl handle).2 ∧
      closeGroup h5gcloseImpl handle = (h5gcloseImpl handle).2 ∧
      ((h5fcloseImpl handle).2 = (altImpl handle).2 →
        closeFile h5fcloseImpl handle = closeFile altImpl handle) ∧
      ((h5gcloseImpl handle).2 = (altImpl handle).2 →
        closeGroup h5gcloseImpl handle = closeGroup altImpl handle) := by
  intro σ f g a h
  exact ⟨rfl, rfl, fun hh => hh, fun hh => hh⟩

/-- Witness for C7: two engine closes returning status 0 and status -1 with
the same state effect are indistinguishable through closeFile. -/
theorem close_discards_status_witness :
    closeFile (fun x => ((0 : Int), x + 1)) 3 =
      closeFile (fun x => ((-1 : Int), x + 1)) 3 :=
  (close_discards_status (fun x => ((0 : Int), x + 1))
    (fun x => ((0 : Int), x + 1)) (fun x => ((-1 : Int), x + 1)) 3).2.2.1 rfl

/-- Claim C8: loading a name with no entry fails with the OpenError and
leaves the container state (so the handle, its entries and its descriptor
count) and the output vector exactly as they were. -/
theorem load_missing_entry_openError :
    ∀ {τ : Type} (st : H5State τ) (pad : τ) (name : String)
      (elemType : CppScalarType) (data : List τ),
      st.entries name = none →
      load st pad name elemType data =
        (.error (.openError "could not open HDF5 dataset."), st, data) := by
  intro τ st pad name ty d h
  simp [load, h5Dopen, h]

/-- Witness for C8 on a fresh container and the name `nonexistent`. -/
theorem load_missing_entry_openError_witness :
    load freshState 0 "nonexistent" .int [9] =
      (.error (.openError "could not open HDF5 dataset."), freshState, [9]) :=
  load_missing_entry_openError freshState 0 "nonexistent" .int [9] rfl

/-- Claim C2: load opens the named entry (OpenError when it is missing),
fails with the not-one-dimensional ShapeError whenever the stored rank is
not 1 while leaving the output untouched (never truncating or
reinterpreting), and otherwise reads the declared element count, leaves the
output with exactly that count, and fills it with the raw contents read via
the type tag of the output's element type. -/
theorem load_checks_shape_then_resizes_and_reads :
    ∀ {τ : Type} (st : H5State τ) (pad : τ) (name : String)
      (elemType : CppScalarType) (data : List τ),
      (st.entries name = none →
        (load st pad name elemType data).1 =
          .error (.openError "could not open HDF5 dataset.")) ∧
      (∀ ds, st.entries name = some ds → ds.dims.length ≠ 1 →
        (load st pad name elemType data).1 =
          .error (.shapeError "HDF5 dataset is not one-dimensional.") ∧
        (load st pad name elemType data).2.2 = data) ∧
      (∀ ds tag, st.entries name = some ds → ds.dims.length = 1 →
        st.failDims = false → hdf5Type elemType = .ok tag →
        st.failDread = false →
        (load st pad name elemType data).1 = .ok () ∧
        (load st pad name elemType data).2.2.length = ds.dims.headD 0 ∧
        (load st pad name elemType data).2.2 =
          vectorResize ds.data (ds.dims.headD 0) pad) := by
  intro τ st pad name ty d
  refine ⟨?_, ?_, ?_⟩
  · intro h
    simp [load, h5Dopen, h]
  · intro ds hds hdim
    simp [load, h5Dopen, hds, h5SgetSimpleExtentNdims, hdim]
  · intro ds tag hds hdim hdims hty hread
    simp [load, h5Dopen, hds, h5SgetSimpleExtentNdims, hdim, h5DgetType,
      h5DgetSpace, h5SgetSimpleExtentDims, hdims, hty, h5Dread, hread,
      vectorResize_length]

/-- Witness for C2: loading the three-element rank-1 entry succeeds and
yields its contents. -/
theorem load_checks_shape_then_resizes_and_reads_witness :
    (load oneDimState 0 "x" .int []).1 = .ok () ∧
    (load oneDimState 0 "x" .int []).2.2.length = 3 ∧
    (load oneDimState 0 "x" .int []).2.2 = [4, 5, 6] :=
  (load_checks_shape_then_resizes_and_reads oneDimState 0 "x" .int []).2.2
    ⟨.nativeInt, [3], [4, 5, 6]⟩ .nativeInt rfl rfl rfl rfl rfl

/-- Claim C10: on the OpenError path and on the not-one-dimensional
ShapeError path, load leaves the output vector completely unchanged; on the
ReadError path the output has already been resized to the stored element
count when the error propagates. -/
theorem load_failure_frame :
    ∀ {τ : Type} (st : H5State τ) (pad : τ) (name : String)
      (elemType : CppScalarType) (data : List τ),
      (st.entries name = none →
        (load st pad name elemType data).2.2 = data) ∧
      (∀ ds, st.entries name = some ds → ds.dims.length ≠ 1 →
        (load st pad name elemType data).2.2 = data) ∧
      (∀ ds tag, st.entries name = some ds → ds.dims.length = 1 →
        st.failDims = false → hdf5Type elemType = .ok tag →
        st.failDread = true →
        (load st pad name elemType data).1 =
          .error (.readError "could not read from HDF5 dataset \x27points\x27.") ∧
        (load st pad name elemType data).2.2.length = ds.dims.headD 0) := by
  intro τ st pad name ty d
  refine ⟨?_, ?_, ?_⟩
  · intro h
    simp [load, h5Dopen, h]
  · intro ds hds hdim
    simp [load, h5Dopen, hds, h5SgetSimpleExtentNdims, hdim]
  · intro ds tag hds hdim hdims hty hread
    simp [load, h5Dopen, hds, h5SgetSimpleExtentNdims, hdim, h5DgetType,
      h5DgetSpace, h5SgetSimpleExtentDims, hdims, hty, h5Dread, hread,
      vectorResize_length]

/-- Witness for C10: a missing entry and a rank-2 entry leave the output
unchanged; a failing raw read leaves it resized to the declared count. -/
theorem load_failure_frame_witness :
    (load readFailState 0 "nonexistent" .int [9]).2.2 = [9] ∧
    (load twoDimState 0 "y" .int [9]).2.2 = [9] ∧
    (load readFailState 0 "x" .int [9]).2.2.length = 3 :=
  ⟨(load_failure_frame readFailState 0 "nonexistent" .int [9]).1 rfl,
   (load_failure_frame twoDimState 0 "y" .int [9]).2.1
     ⟨.nativeInt, [2, 3], List.replicate 6 0⟩ rfl (by decide),
   ((load_failure_frame readFailState 0 "x" .int [9]).2.2
     ⟨.nativeInt, [3], [4, 5, 6]⟩ .nativeInt rfl rfl rfl rfl rfl).2⟩

/-- Claim C9: after opening a file read-only, save never reports success:
the engine rejects the dataset creation on the read-only container and for a
supported element type the wrapper propagates the rejection as the
CreationError (for an unsupported one the failure is the
ConfigurationError; either way it is not success). -/
theorem save_after_readonly_open_fails :
    ∀ {τ : Type} (filename : String) (hdf5version : HDF5Version)
      (contents : String → Option (Dataset τ)) (st : H5State τ) (pad : τ)
      (name : String) (elemType : CppScalarType) (data : List τ),
      openFileModel filename .READ_ONLY hdf5version contents true = .ok st →
      (save st pad name elemType data).1 ≠ .ok () ∧
      (∀ tag, hdf5Type elemType = .ok tag →
        (save st pad name elemType data).1 =
          .error (.creationError "could not create HDF5 dataset.")) := by
  intro τ fn v contents st pad name ty d hopen
  have hst : st =
      { entries := contents, openCount := 0, access := accessFlag .READ_ONLY,
        failScreate := false, failDcreate := false, failDwrite := false,
        failDims := false, failDread := false } := by
    simpa [openFileModel] using hopen.symm
  subst hst
  constructor
  · cases hty : hdf5Type ty with
    | error e => simp [save, h5ScreateSimple, hty]
    | ok tag => simp [save, h5ScreateSimple, hty, h5Dcreate, accessFlag]
  · intro tag hty
    simp [save, h5ScreateSimple, hty, h5Dcreate, accessFlag]

/-- Witness for C9 on a read-only container and a two-element int save. -/
theorem save_after_readonly_open_fails_witness :
    (save roState 0 "x" .int [1, 2]).1 =
      .error (.creationError "could not create HDF5 dataset.") :=
  (save_after_readonly_open_fails "f.h5" .HDF5_VERSION_DEFAULT
    (fun _ => none) roState 0 "x" .int [1, 2] rfl).2 .nativeInt rfl

/-- Claim C1: on a writable container with no pending engine failure and a
fresh name, save of any sequence of a supported element type succeeds, and a
subsequent load of the same name and element type succeeds and returns
exactly that sequence, with the same length. -/
theorem save_load_roundtrip :
    ∀ {τ : Type} (st : H5State τ) (pad : τ) (name : String)
      (elemType : CppScalarType) (tag : H5NativeType) (v d0 : List τ),
      hdf5Type elemType = .ok tag →
      st.access = .rdwr →
      st.failScreate = false → st.failDcreate = false → st.failDwrite = false →
      st.failDims = false → st.failDread = false →
      st.entries name = none →
      (save st pad name elemType v).1 = .ok () ∧
      (load (save st pad name elemType v).2 pad name elemType d0).1 = .ok () ∧
      (load (save st pad name elemType v).2 pad name elemType d0).2.2 = v ∧
      (load (save st pad name elemType v).2 pad name elemType d0).2.2.length =
        v.length := by
  intro τ st pad name ty tag v d0 hty hacc h1 h2 h3 h4 h5 hnone
  simp [save, load, h5ScreateSimple, h5Dcreate, h5Dwrite, h5Dopen, h5DgetType,
    h5DgetSpace, h5SgetSimpleExtentNdims, h5SgetSimpleExtentDims, h5Dread,
    h5Sclose, h5Dclose, h5Tclose, hty, hacc, h1, h2, h3, h4, h5, hnone,
    vectorResize_self]

/-- Witness for C1: the sequence 1, 2, 3 of ints round-trips through a fresh
container under the name `x`. -/
theorem save_load_roundtrip_witness :
    (save freshState 0 "x" .int [1, 2, 3]).1 = .ok () ∧
    (load (save freshState 0 "x" .int [1, 2, 3]).2 0 "x" .int []).1 = .ok () ∧
    (load (save freshState 0 "x" .int [1, 2, 3]).2 0 "x" .int []).2.2 =
      [1, 2, 3] ∧
    (load (save freshState 0 "x" .int [1, 2, 3]).2 0 "x" .int []).2.2.length =
      [1, 2, 3].length :=
  save_load_roundtrip freshState 0 "x" .int .nativeInt [1, 2, 3] []
    rfl rfl rfl rfl rfl rfl rfl rfl

/-- Claim C3 (code bug): on save's ConfigurationError path the dataspace
descriptor acquired by `H5Screate_simple` is not released, because
`HDF5Type<T>::type()` throws inside the argument list of `H5Dcreate` before
any cleanup can run: the open-descriptor count rises from 0 to 1.  The other
failure paths of save (shape creation, entry creation, raw write) do restore
the balance. -/
theorem save_unsupported_type_leaks_dataspace :
    (save freshState 0 "x" (.unsupported "mytype") [1, 2]).1 =
      .error (.configurationError
        "conversion of this type to HDF5 type not implemented.") ∧
    (save freshState 0 "x" (.unsupported "mytype") [1, 2]).2.openCount = 1 ∧
    freshState.openCount = 0 ∧
    (save { freshState with failScreate := true } 0 "x" .int [1, 2]).2.openCount
      = 0 ∧
    (save { freshState with failDcreate := true } 0 "x" .int [1, 2]).2.openCount
      = 0 ∧
    (save { freshState with failDwrite := true } 0 "x" .int [1, 2]).2.openCount
      = 0 :=
  ⟨rfl, rfl, rfl, rfl, rfl, rfl⟩

/-- Claim C4 (code bug): save's successful completion leaves its dataset and
dataspace descriptors open (count 0 to 2), and load's not-one-dimensional
ShapeError path leaves the dataset, type and dataspace descriptors open
(count 0 to 3) — exactly the two paths the claim singles out as balanced. -/
theorem save_and_load_leak_open_descriptors :
    (save freshState 0 "x" .int [1]).1 = .ok () ∧
    (save freshState 0 "x" .int [1]).2.openCount = 2 ∧
    (load twoDimState 0 "y" .int []).1 =
      .error (.shapeError "HDF5 dataset is not one-dimensional.") ∧
    (load twoDimState 0 "y" .int []).2.1.openCount = 3 ∧
    freshState.openCount = 0 ∧ twoDimState.openCount = 0 :=
  ⟨rfl, rfl, rfl, rfl, rfl, rfl⟩

end hdf5

end andres
